import Mathlib

/-!
Verification of the fake-news-detector backend
(`training/backend/app.py`, `training/backend/database.py`,
`training/backend/preprocess/text_cleaning.py`).

The Python code is shallowly embedded: pure helpers become Lean functions on
`List Char` / `String`, the Flask handler `predict_enhanced` becomes an explicit
state-transition function over a `ServerState`, and the SQLite store becomes a
list of records.  Machine clock instants are modelled as `ℤ` (seconds),
Python floats that only ever get compared or defaulted are modelled as `ℚ`.
The pre-trained classifier (`model.pkl` / `vectorizer.pkl`) and the `hashlib.md5`
digest are external capabilities and are taken as opaque function parameters.
-/

/-- Python whitespace for `str.strip`, `str.split`, and regex `\s` / `\S`
(ASCII part: space, tab, newline, carriage return, vertical tab, form feed). -/
def isPySpace (c : Char) : Bool :=
  c = ' ' || c = '\t' || c = '\n' || c = '\r' || c = Char.ofNat 11 || c = Char.ofNat 12

/-- ASCII approximation of regex `\w`: letters, digits, underscore. -/
def isPyWord (c : Char) : Bool := c.isAlpha || c.isDigit || c = '_'

def isUpperAZ (c : Char) : Bool := 'A' ≤ c && c ≤ 'Z'

def isLowerAZ (c : Char) : Bool := 'a' ≤ c && c ≤ 'z'

/-- `text.lower()` (ASCII case folding). -/
def strLower (s : String) : String := String.mk (s.data.map Char.toLower)

/-- `str.strip()` on a character list. -/
def pyStripL (l : List Char) : List Char :=
  ((l.dropWhile isPySpace).reverse.dropWhile isPySpace).reverse

/-- `text.strip()`. -/
def pyStrip (s : String) : String := String.mk (pyStripL s.data)

/-- Accumulator pass behind `pyWords`; splits a character list into maximal
runs of non-whitespace characters, like Python `str.split()` with no
argument (no empty words, leading/trailing whitespace ignored). -/
def pyWordsAux : List Char → List Char → List (List Char)
  | [], acc => if acc.isEmpty then [] else [acc.reverse]
  | c :: cs, acc =>
    if isPySpace c then
      if acc.isEmpty then pyWordsAux cs [] else acc.reverse :: pyWordsAux cs []
    else pyWordsAux cs (c :: acc)

/-- `text.split()`. -/
def pyWords (s : String) : List String := (pyWordsAux s.data []).map String.mk

/-- Substring test, Python `needle in hay`. -/
def containsSub (needle : List Char) : List Char → Bool
  | [] => needle.isPrefixOf []
  | c :: t => if needle.isPrefixOf (c :: t) then true else containsSub needle t

/-- Generic left-to-right non-overlapping `re.sub(pattern, '', text)` scanner.
`m l = some n` means the pattern matches a prefix of `l` of length `n + 1`
(all patterns used match at least one character); the matched prefix is
dropped and scanning resumes right after it.  On no match the head character
is kept and scanning moves one character right, as `re.sub` does.
The fuel counter (started at the list length, an upper bound since every
match consumes at least one character) only makes the recursion structural;
the exhaustion branch is unreachable. -/
def scanSubAux (m : List Char → Option Nat) : Nat → List Char → List Char
  | _, [] => []
  | 0, _ :: _ => []
  | fuel + 1, c :: cs =>
    match m (c :: cs) with
    | some n => scanSubAux m fuel (cs.drop n)
    | none => c :: scanSubAux m fuel cs

def scanSub (m : List Char → Option Nat) (l : List Char) : List Char :=
  scanSubAux m l.length l

/-- Matcher for `https?://\S+|www\.\S+` (first alternative tried first,
`s?` greedy, `\S+` greedy).  Returns `some n` for a match of `n + 1` chars. -/
def urlMatch (l : List Char) : Option Nat :=
  if ['h', 't', 't', 'p', 's', ':', '/', '/'].isPrefixOf l then
    let run := (l.drop 8).takeWhile (fun c => !isPySpace c)
    if run.isEmpty then none else some (8 + run.length - 1)
  else if ['h', 't', 't', 'p', ':', '/', '/'].isPrefixOf l then
    let run := (l.drop 7).takeWhile (fun c => !isPySpace c)
    if run.isEmpty then none else some (7 + run.length - 1)
  else if ['w', 'w', 'w', '.'].isPrefixOf l then
    let run := (l.drop 4).takeWhile (fun c => !isPySpace c)
    if run.isEmpty then none else some (4 + run.length - 1)
  else none

/-- Matcher for `<.*?>` (non-greedy, `.` does not match a newline): from a
leading `<`, match up to the nearest following `>` with no newline between. -/
def htmlMatch (l : List Char) : Option Nat :=
  match l with
  | '<' :: rest =>
    let seg := rest.takeWhile (fun c => c ≠ '>' && c ≠ '\n')
    match rest.drop seg.length with
    | '>' :: _ => some (seg.length + 1)
    | _ => none
  | _ => none

/-- `string.punctuation` (the 32 ASCII punctuation characters). -/
def pyPunctuation : List Char :=
  ['!', '"', '#', '$', '%', '&', Char.ofNat 39, '(', ')', '*', '+', ',', '-',
   '.', '/', ':', ';', '<', '=', '>', '?', '@', '[', Char.ofNat 92, ']', '^',
   '_', Char.ofNat 96, Char.ofNat 123, '|', Char.ofNat 125, '~']

/-- Matcher for `\w*\d\w*`: a match at a position exists iff the maximal run
of word characters starting there is nonempty and contains a digit; greedy
backtracking always consumes the whole run. -/
def digitWordMatch (l : List Char) : Option Nat :=
  let run := l.takeWhile isPyWord
  if run.isEmpty then none
  else if run.any Char.isDigit then some (run.length - 1) else none

/-- `re.sub(r'https?://\S+|www\.\S+', '', text)`. -/
def stripUrls (l : List Char) : List Char := scanSub urlMatch l

/-- `re.sub(r'<.*?>', '', text)`. -/
def stripHtmlTags (l : List Char) : List Char := scanSub htmlMatch l

/-- `re.sub('[' + re.escape(string.punctuation) + ']', '', text)`:
a one-character class substitution is a character filter. -/
def stripPunct (l : List Char) : List Char :=
  l.filter (fun c => !pyPunctuation.contains c)

/-- `re.sub(r'\n', '', text)`. -/
def stripNewlines (l : List Char) : List Char := l.filter (fun c => c ≠ '\n')

/-- `re.sub(r'\w*\d\w*', '', text)`. -/
def stripDigitWords (l : List Char) : List Char := scanSub digitWordMatch l

/-- `preprocess/text_cleaning.py`, `clean_text`: lowercase, then remove URLs,
HTML tags, punctuation, line breaks, and words containing digits, in that
order. -/
def clean_text (s : String) : String :=
  String.mk
    (stripDigitWords (stripNewlines (stripPunct (stripHtmlTags (stripUrls
      (s.data.map Char.toLower))))))

/-- Pass behind `collapseWs`; the flag records whether the scanner stands
inside a whitespace run (a single `' '` is emitted at the start of each run). -/
def collapseWsAux : Bool → List Char → List Char
  | _, [] => []
  | inRun, c :: cs =>
    if isPySpace c then
      if inRun then collapseWsAux true cs else ' ' :: collapseWsAux true cs
    else c :: collapseWsAux false cs

/-- Whitespace-run collapsing, `re.sub(r'\s+', ' ', title)`: each maximal run
of whitespace characters becomes one space. -/
def collapseWs (l : List Char) : List Char := collapseWsAux false l

/-- `title[:100].rsplit(' ', 1)[0]`: everything before the last space,
or the whole list when it holds no space. -/
def beforeLastSpace (t : List Char) : List Char :=
  if ' ' ∈ t then ((t.reverse.dropWhile (fun c => c ≠ ' ')).drop 1).reverse else t

/-- `app.py`, `extract_title_from_text`: first piece of
`re.split(r'[.!?]+', text.strip())` (the characters before the first
sentence-terminal character), stripped, whitespace-collapsed, and truncated
at a word boundary with an ellipsis when longer than `max_length`.
(`re.split` always returns a nonempty list, so the `"News Article"`
fallback branch of the source is unreachable.) -/
def extract_title_from_text (text : String) (max_length : Nat) : String :=
  let first := (pyStripL text.data).takeWhile (fun c => c ≠ '.' && c ≠ '!' && c ≠ '?')
  let title := collapseWs (pyStripL first)
  if max_length < title.length then
    String.mk (beforeLastSpace (title.take max_length)) ++ "..."
  else String.mk title

/-- `re.findall` scanner with word-boundary support: `prev` is the character
just before the current scan position (`none` at the start of the string).
`m prev l = some n` means a match of `n + 1` characters; the match is
collected and scanning resumes after it, otherwise the scanner advances one
character. -/
def scanFindAllAux (m : Option Char → List Char → Option Nat) :
    Nat → Option Char → List Char → List String
  | _, _, [] => []
  | 0, _, _ :: _ => []
  | fuel + 1, prev, c :: cs =>
    match m prev (c :: cs) with
    | some n =>
      let matched := c :: cs.take n
      String.mk matched ::
        scanFindAllAux m fuel (some (matched.getLastD c)) (cs.drop n)
    | none => scanFindAllAux m fuel (some c) cs

/-- `re.findall` over `scanFindAllAux` with enough fuel (the list length;
every match consumes at least one character, so the fuel-exhaustion branch
is unreachable and the fuel only makes the recursion structural). -/
def scanFindAll (m : Option Char → List Char → Option Nat) (prev : Option Char)
    (l : List Char) : List String :=
  scanFindAllAux m l.length prev l

/-- `\b` holds before the current position when there is no previous
character or the previous character is not a word character. -/
def startBoundary (prev : Option Char) : Bool :=
  match prev with
  | none => true
  | some c => !isPyWord c

/-- `\b` holds after a match when the input ends there or continues with a
non-word character. -/
def endBoundary : List Char → Bool
  | [] => true
  | c :: _ => !isPyWord c

/-- Matcher for the person pattern `\b[A-Z][a-z]+ [A-Z][a-z]+\b`
(greedy `[a-z]+` runs are maximal; shorter backtracked runs are always
followed by a lowercase letter, so only maximal runs can complete). -/
def personMatch (prev : Option Char) (l : List Char) : Option Nat :=
  if startBoundary prev then
    match l with
    | c1 :: rest1 =>
      if isUpperAZ c1 then
        let run1 := rest1.takeWhile isLowerAZ
        if run1.isEmpty then none
        else
          match rest1.drop run1.length with
          | ' ' :: c2 :: rest3 =>
            if isUpperAZ c2 then
              let run2 := rest3.takeWhile isLowerAZ
              if run2.isEmpty then none
              else if endBoundary (rest3.drop run2.length) then
                some (1 + run1.length + 1 + run2.length)
              else none
            else none
          | _ => none
      else none
    | [] => none
  else none

/-- The literal alternatives of the organization pattern. -/
def orgSuffixes : List (List Char) :=
  [['I', 'n', 'c'], ['C', 'o', 'r', 'p'], ['L', 'L', 'C'], ['L', 't', 'd'],
   ['C', 'o', 'm', 'p', 'a', 'n', 'y'],
   ['O', 'r', 'g', 'a', 'n', 'i', 'z', 'a', 't', 'i', 'o', 'n']]

/-- First alternative from `alts` that is a prefix of `l` and is followed by a
word boundary; returns its length. -/
def literalAltMatch (alts : List (List Char)) (l : List Char) : Option Nat :=
  match alts with
  | [] => none
  | a :: rest =>
    if a.isPrefixOf l && endBoundary (l.drop a.length) then some a.length
    else literalAltMatch rest l

/-- Matcher for the organization pattern
`\b[A-Z][a-z]+ (?:Inc|Corp|LLC|Ltd|Company|Organization)\b`. -/
def orgMatch (prev : Option Char) (l : List Char) : Option Nat :=
  if startBoundary prev then
    match l with
    | c1 :: rest1 =>
      if isUpperAZ c1 then
        let run1 := rest1.takeWhile isLowerAZ
        if run1.isEmpty then none
        else
          match rest1.drop run1.length with
          | ' ' :: rest2 =>
            match literalAltMatch orgSuffixes rest2 with
            | some n => some (1 + run1.length + 1 + n - 1)
            | none => none
          | _ => none
      else none
    | [] => none
  else none

/-- The literal city alternatives of the location pattern, in source order. -/
def locationAlts : List (List Char) :=
  [("New York".data), ("Los Angeles".data), ("Chicago".data), ("Houston".data),
   ("Phoenix".data), ("Philadelphia".data), ("San Antonio".data),
   ("San Diego".data), ("Dallas".data), ("San Jose".data)]

/-- Matcher for the location pattern
`\b(?:New York|Los Angeles|...|San Jose)\b`. -/
def locationMatch (prev : Option Char) (l : List Char) : Option Nat :=
  if startBoundary prev then
    match literalAltMatch locationAlts l with
    | some n => some (n - 1)
    | none => none
  else none

/-- The structured entity extraction result (`persons`, `organizations`,
`locations`). -/
structure Entities where
  persons : List String
  organizations : List String
  locations : List String
deriving DecidableEq, Repr

/-- `app.py`, `extract_entities`: simplified regex-based named-entity
extraction over three fixed patterns. -/
def extract_entities (text : String) : Entities :=
  { persons := scanFindAll personMatch none text.data,
    organizations := scanFindAll orgMatch none text.data,
    locations := scanFindAll locationMatch none text.data }

/-- The fixed English stopword list of `detect_language`. -/
def englishWords : List String :=
  ["the", "and", "or", "but", "in", "on", "at", "to", "for", "of", "with", "by"]

/-- `app.py`, `detect_language`: counts stopwords among the first 50
lowercased words; `english_count > len(words) * 0.1` is decided exactly as
`10 * english_count > len(words)` (for at most 50 words the float product
`len * 0.1` rounds to a value strictly between the neighbouring integers or
to the exact integer, so the comparison agrees with exact arithmetic). -/
def detect_language (text : String) : String :=
  let words := (pyWords (strLower text)).take 50
  let english_count := (words.filter (fun w => englishWords.contains w)).length
  if words.length < 10 * english_count then "en" else "unknown"

/-- The fixed tag taxonomy of `enhanced_extract_tags_from_text`, in source
(insertion) order. -/
def newsCategories : List (String × List String) :=
  [("politics", ["election", "government", "president", "congress", "senate",
      "vote", "policy", "democrat", "republican"]),
   ("health", ["doctor", "hospital", "medicine", "vaccine", "virus", "disease",
      "treatment", "medical", "covid"]),
   ("technology", ["computer", "software", "internet", "ai",
      "artificial intelligence", "robot", "tech", "digital"]),
   ("sports", ["football", "basketball", "baseball", "soccer", "game", "team",
      "player", "championship", "olympic"]),
   ("business", ["company", "market", "stock", "economy", "finance",
      "investment", "profit", "business", "corporate"]),
   ("entertainment", ["movie", "music", "celebrity", "actor", "singer", "film",
      "show", "entertainment", "hollywood"]),
   ("science", ["research", "study", "scientist", "discovery", "experiment",
      "university", "academic", "journal"]),
   ("environment", ["climate", "environment", "pollution", "green",
      "renewable", "carbon", "sustainability"]),
   ("crime", ["police", "arrest", "crime", "criminal", "court", "judge", "law",
      "legal", "investigation"]),
   ("international", ["country", "nation", "international", "global", "world",
      "foreign", "embassy", "diplomatic"])]

/-- `app.py`, `enhanced_extract_tags_from_text`: a category is tagged when any
of its keywords occurs as a substring of the lowercased text; the dict
iteration order is the insertion order above, and the result is cut to
`max_tags`. -/
def enhanced_extract_tags_from_text (text : String) (max_tags : Nat := 5) :
    List String :=
  let text_lower := strLower text
  ((newsCategories.filter
      (fun c => c.2.any (fun kw => containsSub kw.data text_lower.data))).map
    (fun c => c.1)).take max_tags

/-- `app.py`, `generate_placeholder_image_url`. -/
def generate_placeholder_image_url (prediction : String) : String :=
  let color := if prediction = "REAL" then "10b981" else "ef4444"
  "https://via.placeholder.com/300x200/" ++ color ++ "/ffffff?text=" ++ prediction

/-- One prediction record, the dict assembled by `predict_enhanced` /
one row of the `predictions` table.  Keys always present in the dict are
plain fields; keys read with `.get(...)` (or, for `id`, set only after a
successful insert) are `Option`s.  Timestamps are clock instants in `ℤ`
seconds, floats that are only stored/compared are `ℚ`, and the
`probabilities` JSON object is an association list. -/
structure PredRecord where
  id : Option Nat
  username : String
  news : String
  prediction : String
  confidence : Option ℚ
  probabilities : Option (List (String × ℚ))
  timestamp : ℤ
  source : Option String
  category : Option String
  tags : Option (List String)
  language : Option String
  entities : Option Entities
  content_hash : Option String
  processing_time : Option ℚ
  model_version : Option String
  user_agent : Option String
  ip_address : Option String
  word_count : Option Nat
  character_count : Option Nat
deriving DecidableEq, Repr

/-- The card view returned by `generate_card_data`. -/
structure Card where
  id : String
  title : String
  content : String
  prediction : String
  confidence : ℚ
  timestamp : ℤ
  username : String
  imageUrl : String
  source : String
  category : String
  tags : List String
  language : String
  word_count : Nat
  character_count : Nat
  content_hash : String
  entities : Entities
  model_version : String
deriving DecidableEq, Repr

/-- The JSON payload of `POST /api/predict` (`text` required by the
validator, `source` / `category` optional). -/
structure Payload where
  text : Option String
  source : Option String
  category : Option String
deriving DecidableEq, Repr

/-- Raw aggregate of `DatabaseManager.get_statistics` (the `top_users`
ranking is omitted: its SQL tie order is backend-unspecified and no claim
depends on it). -/
structure Stats where
  total_predictions : Nat
  by_prediction : List (String × Nat)
  recent_activity : Nat
deriving DecidableEq, Repr

/-- The formatted statistics object of `get_card_stats` (per-label count with
the fixed constants 0.85/0.5/0.99 for avg/min/max confidence). -/
structure StatsResult where
  total_predictions : Nat
  by_prediction : List (String × Nat × ℚ × ℚ × ℚ)
  recent_activity : Nat
deriving DecidableEq, Repr

/-- One entry of the process-local `cache` dict: the stored value (absent
when invalidated), the instant it was computed, and its TTL. -/
structure CacheEntry where
  data : Option StatsResult
  timestamp : ℤ
  ttl : ℤ
deriving DecidableEq, Repr

/-- The `rate_limit_storage` defaultdict: client id → recorded instants. -/
abbrev RateStorage : Type := List (String × List ℤ)

/-- `rate_limit_storage[client_ip]` (a defaultdict: absent keys read as `[]`). -/
def lookupD : RateStorage → String → List ℤ
  | [], _ => []
  | (k, v) :: rest, ip => if k = ip then v else lookupD rest ip

/-- `rate_limit_storage[client_ip] = v` (assignment: replace, or append a new
binding). -/
def updateD : RateStorage → String → List ℤ → RateStorage
  | [], ip, v => [(ip, v)]
  | (k, w) :: rest, ip, v =>
    if k = ip then (ip, v) :: rest else (k, w) :: updateD rest ip v

/-- The pruning step of `rate_limit`: keep the instants strictly inside the
trailing window (`current_time - req_time < window`). -/
def pruneL (l : List ℤ) (now window : ℤ) : List ℤ :=
  l.filter (fun t => now - t < window)

/-- The per-client body of the `rate_limit` decorator: prune, then either
reject (leaving only the pruned list — the new attempt is *not* recorded) or
record the current instant and allow. -/
def rate_allow (l : List ℤ) (now : ℤ) (max_requests : Nat) (window : ℤ) :
    Bool × List ℤ :=
  let pruned := pruneL l now window
  if max_requests ≤ pruned.length then (false, pruned)
  else (true, pruned ++ [now])

/-- `rate_limit(max_requests, window)` acting on the shared
`rate_limit_storage` dict, which is keyed by the client ip alone. -/
def rate_limit_check (storage : RateStorage) (ip : String) (now : ℤ)
    (max_requests : Nat) (window : ℤ) : Bool × RateStorage :=
  let ra := rate_allow (lookupD storage ip) now max_requests window
  (ra.1, updateD storage ip ra.2)

/-- The `@rate_limit(max_requests=20, window=60)` instance decorating
`POST /api/analyze-url` (`app.py` line 936). -/
def analyze_url_rate (storage : RateStorage) (ip : String) (now : ℤ) :
    Bool × RateStorage :=
  rate_limit_check storage ip now 20 60

/-- The `@rate_limit(max_requests=30, window=60)` instance decorating
`POST /api/predict` (`app.py` line 1063). -/
def predict_rate (storage : RateStorage) (ip : String) (now : ℤ) :
    Bool × RateStorage :=
  rate_limit_check storage ip now 30 60

/-- A sequence of checks of one `rate_limit` instance against a single
client's recorded-instant list, one check per instant in `calls`. -/
def runRate (max_requests : Nat) (window : ℤ) :
    List ℤ → List ℤ → List Bool × List ℤ
  | [], l => ([], l)
  | t :: ts, l =>
    let step := rate_allow l t max_requests window
    let rest := runRate max_requests window ts step.2
    (step.1 :: rest.1, rest.2)

/-- A sequence of checks of one decorated endpoint against the shared
storage, for one client, one check per instant in `times`. -/
def runEndpointCalls (f : RateStorage → String → ℤ → Bool × RateStorage)
    (ip : String) : List ℤ → RateStorage → List Bool × RateStorage
  | [], s => ([], s)
  | t :: ts, s =>
    let step := f s ip t
    let rest := runEndpointCalls f ip ts step.2
    (step.1 :: rest.1, rest.2)

/-- The whole process state touched by the claims: the `predictions` table
with SQLite's next rowid, the `'stats'` entry of the in-process cache, and
the rate-limit storage. -/
structure ServerState where
  store : List PredRecord
  nextId : Nat
  statsCache : CacheEntry
  rateStorage : RateStorage
deriving DecidableEq, Repr

/-- Observable side effects of one `POST /api/predict` request: classifier
invocations and successful store inserts. -/
structure Effects where
  classifierCalls : Nat
  storeWrites : Nat
deriving DecidableEq, Repr

def noEffects : Effects := ⟨0, 0⟩

/-- The JSON bodies `predict_enhanced` can answer with, restricted to the
fields the claims inspect.  `ok card cached result confidence mv` stands for
the success body (`cached` is `true` exactly when the response carries
`'cached': True`; the fresh-path body has no `cached` key, modelled `false`);
`err code message` stands for the `error_response` envelope. -/
inductive PredictResp where
  | ok (card : Card) (cached : Bool) (result : String) (confidence : ℚ)
      (model_version : String)
  | err (code : Nat) (message : String)
deriving DecidableEq, Repr

/-- `DatabaseManager.get_prediction_by_hash`:
`SELECT * FROM predictions WHERE content_hash = ?` — first stored row whose
hash column equals the argument. -/
def get_prediction_by_hash (store : List PredRecord) (h : String) :
    Option PredRecord :=
  store.find? (fun r => decide (r.content_hash = some h))

/-- The row actually inserted by `DatabaseManager.create_prediction`: SQLite
assigns the rowid, and every optional dict key is materialised with the
`.get(...)` default of the INSERT parameter list. -/
def db_normalize (r : PredRecord) (rowid : Nat) : PredRecord :=
  { id := some rowid,
    username := r.username,
    news := r.news,
    prediction := r.prediction,
    confidence := some (r.confidence.getD 0.85),
    probabilities := some (r.probabilities.getD []),
    timestamp := r.timestamp,
    source := some (r.source.getD "Web Interface"),
    category := some (r.category.getD "General"),
    tags := some (r.tags.getD []),
    language := some (r.language.getD "en"),
    entities := some (r.entities.getD ⟨[], [], []⟩),
    content_hash := some (r.content_hash.getD ""),
    processing_time := some (r.processing_time.getD 0),
    model_version := some (r.model_version.getD "1.0"),
    user_agent := some (r.user_agent.getD ""),
    ip_address := some (r.ip_address.getD ""),
    word_count := some (r.word_count.getD 0),
    character_count := some (r.character_count.getD 0) }

/-- `DatabaseManager.create_prediction`: append the normalised row and return
`cursor.lastrowid`. -/
def create_prediction (store : List PredRecord) (nextId : Nat)
    (r : PredRecord) : Nat × List PredRecord :=
  (nextId, store ++ [db_normalize r nextId])

/-- `DatabaseManager.get_statistics` (aggregates over the predictions table;
`now` stands for the database clock of `datetime('now', '-1 day')`). -/
def get_statistics (store : List PredRecord) (now : ℤ) : Stats :=
  { total_predictions := store.length,
    by_prediction :=
      ((store.map (fun r => r.prediction)).dedup).map
        (fun p => (p, (store.filter (fun r => decide (r.prediction = p))).length)),
    recent_activity :=
      (store.filter (fun r => decide (now - 86400 < r.timestamp))).length }

/-- The response shaping of `get_card_stats` (fixed 0.85/0.5/0.99 confidence
constants per label). -/
def format_stats (s : Stats) : StatsResult :=
  { total_predictions := s.total_predictions,
    by_prediction :=
      s.by_prediction.map (fun pc => (pc.1, pc.2, (0.85 : ℚ), (0.5 : ℚ), (0.99 : ℚ))),
    recent_activity := s.recent_activity }

/-- `app.py`, `get_cached_data`: the value is served only when present
(`data is not None`) and fresh (`time.time() - timestamp < ttl`). -/
def get_cached_data (e : CacheEntry) (now : ℤ) : Option StatsResult :=
  match e.data with
  | some v => if now - e.timestamp < e.ttl then some v else none
  | none => none

/-- `app.py`, `set_cached_data`: overwrite the entry's value and stamp it with
the current instant (the `'stats'` key is always present in `cache`). -/
def set_cached_data (e : CacheEntry) (d : Option StatsResult) (now : ℤ) :
    CacheEntry :=
  { e with data := d, timestamp := now }

/-- `GET /api/cards/stats` (`get_card_stats`): serve from the cache when
`get_cached_data` yields a value (the formatted dict is nonempty, hence
truthy), otherwise recompute from the store and refresh the entry. -/
def get_card_stats (st : ServerState) (now : ℤ) : StatsResult × ServerState :=
  match get_cached_data st.statsCache now with
  | some v => (v, st)
  | none =>
    let result := format_stats (get_statistics st.store now)
    (result, { st with statsCache := set_cached_data st.statsCache (some result) now })

/-- `app.py`, `generate_card_data`.  `generate_content_hash` is
`hashlib.md5(...).hexdigest()`, an opaque capability.  Required dict keys are
plain record fields; `prediction_record['id']` raises `KeyError` when the
record was never successfully inserted (modelled by the `Except` error), and
every `.get(key, default)` becomes `Option.getD`. -/
def generate_card_data (generate_content_hash : String → String)
    (r : PredRecord) : Except String Card :=
  match r.id with
  | none => .error "KeyError: id"
  | some i =>
    .ok
      { id := toString i,
        title := extract_title_from_text r.news 100,
        content := r.news,
        prediction := r.prediction,
        confidence := r.confidence.getD 0.85,
        timestamp := r.timestamp,
        username := r.username,
        imageUrl := generate_placeholder_image_url r.prediction,
        source := r.source.getD "User Submission",
        category := r.category.getD "General",
        tags := r.tags.getD [],
        language := r.language.getD "en",
        word_count := r.word_count.getD (pyWords r.news).length,
        character_count := r.character_count.getD r.news.length,
        content_hash := r.content_hash.getD (generate_content_hash r.news),
        entities := r.entities.getD ⟨[], [], []⟩,
        model_version := r.model_version.getD "1.0" }

/-- Lines 1099–1112 of `app.py`: `model.predict`, then `model.predict_proba`
guarded by try/except.  `model_predict_proba cleaned = some (s0, s1)` stands
for a successful `predict_proba` call returning the two class scores
`[s0, s1]` (the code reads index 0 as FAKE and index 1 as REAL);
`none` stands for the exception path with its fixed 0.85 fallback.
Returns (prediction, confidence, probabilities). -/
def classifier_outputs (model_predict : String → String)
    (model_predict_proba : String → Option (ℚ × ℚ)) (cleaned : String) :
    String × ℚ × List (String × ℚ) :=
  let prediction := model_predict cleaned
  match model_predict_proba cleaned with
  | some scores =>
    (prediction, max scores.1 scores.2, [("REAL", scores.2), ("FAKE", scores.1)])
  | none =>
    (prediction, 0.85,
     if prediction = "REAL" then [("REAL", (0.85 : ℚ)), ("FAKE", (0.15 : ℚ))]
     else [("REAL", (0.15 : ℚ)), ("FAKE", (0.85 : ℚ))])

/-- The `prediction_record` dict assembled on the fresh path of
`predict_enhanced` (before the store write, hence `id := none`;
`processing_time` is a wall-clock measurement, modelled as 0). -/
def fresh_prediction_record (generate_content_hash : String → String)
    (model_predict : String → String)
    (model_predict_proba : String → Option (ℚ × ℚ)) (ip ua : String)
    (now : ℤ) (data : Payload) (news_text : String)
    (sessionUser : Option String) : PredRecord :=
  let co := classifier_outputs model_predict model_predict_proba (clean_text news_text)
  { id := none,
    username := sessionUser.getD "anonymous",
    news := news_text,
    prediction := co.1,
    confidence := some co.2.1,
    probabilities := some co.2.2,
    timestamp := now,
    source := some (data.source.getD "API"),
    category := some (data.category.getD "General"),
    tags := some (enhanced_extract_tags_from_text news_text),
    language := some (detect_language news_text),
    entities := some (extract_entities news_text),
    content_hash := some (generate_content_hash news_text),
    processing_time := some 0,
    model_version := some "1.0",
    user_agent := some ua,
    ip_address := some ip,
    word_count := some (pyWords news_text).length,
    character_count := some news_text.length }

/-- Lines 1095–1184 of `predict_enhanced`: the fresh (non-deduplicated) path.
`storeOk` tells whether `db.create_prediction` succeeds; on failure the
exception is logged and swallowed and `prediction_record['id']` is never set,
so the subsequent `generate_card_data` raises and the outer handler answers
with the 500 envelope — in that case the statistics cache is *not*
invalidated (line 1163 is never reached). -/
def predict_fresh (generate_content_hash : String → String)
    (model_predict : String → String)
    (model_predict_proba : String → Option (ℚ × ℚ)) (st1 : ServerState)
    (ip ua : String) (now : ℤ) (data : Payload) (news_text : String)
    (sessionUser : Option String) (storeOk : Bool) :
    PredictResp × ServerState × Effects :=
  let co := classifier_outputs model_predict model_predict_proba (clean_text news_text)
  let record := fresh_prediction_record generate_content_hash model_predict
    model_predict_proba ip ua now data news_text sessionUser
  let wr :=
    if storeOk then
      let ins := create_prediction st1.store st1.nextId record
      ({ record with id := some ins.1 },
       { st1 with store := ins.2, nextId := st1.nextId + 1 }, 1)
    else (record, st1, 0)
  match generate_card_data generate_content_hash wr.1 with
  | .error e => (.err 500 ("Prediction failed: " ++ e), wr.2.1, ⟨1, wr.2.2⟩)
  | .ok card =>
    (.ok card false co.1 co.2.1 "1.0",
     { wr.2.1 with statsCache := set_cached_data (wr.2.1).statsCache none now },
     ⟨1, wr.2.2⟩)

/-- The body of the `try` of `predict_enhanced` (lines 1066–1188): trim,
length-validate, dedup-check by content hash, then either answer from the
existing record (`cached: true`, no classifier call, no write) or run the
fresh path. -/
def predict_core (generate_content_hash : String → String)
    (model_predict : String → String)
    (model_predict_proba : String → Option (ℚ × ℚ)) (st1 : ServerState)
    (ip ua : String) (now : ℤ) (data : Payload) (rawText : String)
    (sessionUser : Option String) (storeOk : Bool) :
    PredictResp × ServerState × Effects :=
  let news_text := pyStrip rawText
  if news_text.length < 10 then
    (.err 400 "Text must be at least 10 characters long", st1, noEffects)
  else if 10000 < news_text.length then
    (.err 400 "Text must be less than 10,000 characters", st1, noEffects)
  else
    match get_prediction_by_hash st1.store (generate_content_hash news_text) with
    | some existing =>
      match generate_card_data generate_content_hash existing with
      | .ok card =>
        (.ok card true existing.prediction (existing.confidence.getD 0.85)
           (existing.model_version.getD "1.0"), st1, noEffects)
      | .error e => (.err 500 ("Prediction failed: " ++ e), st1, noEffects)
    | none =>
      predict_fresh generate_content_hash model_predict model_predict_proba
        st1 ip ua now data news_text sessionUser storeOk

/-- The whole `POST /api/predict` request pipeline: the
`@rate_limit(30, 60)` decorator (which mutates the shared storage even when
it rejects, by writing back the pruned list), the
`@validate_json_input(['text'])` decorator (`body = none` stands for a
missing/empty JSON document), then `predict_core`. -/
def predict_enhanced (generate_content_hash : String → String)
    (model_predict : String → String)
    (model_predict_proba : String → Option (ℚ × ℚ)) (st : ServerState)
    (ip ua : String) (now : ℤ) (body : Option Payload)
    (sessionUser : Option String) (storeOk : Bool) :
    PredictResp × ServerState × Effects :=
  let rl := predict_rate st.rateStorage ip now
  let st1 : ServerState := { st with rateStorage := rl.2 }
  if rl.1 then
    match body with
    | none => (.err 400 "Invalid JSON data", st1, noEffects)
    | some data =>
      match data.text with
      | none => (.err 400 "Missing required fields: text", st1, noEffects)
      | some rawText =>
        predict_core generate_content_hash model_predict model_predict_proba
          st1 ip ua now data rawText sessionUser storeOk
  else
    (.err 429 "Rate limit exceeded. Max 30 requests per 60 seconds.", st1,
     noEffects)

/-- The state right after the `rate_limit` stage of `POST /api/predict`. -/
def predictRateState (st : ServerState) (ip : String) (now : ℤ) : ServerState :=
  { st with rateStorage := (predict_rate st.rateStorage ip now).2 }

/-- The pagination object assembled by `GET /api/cards` (`get_cards`,
lines 845–889): `page` below 1 is clamped to 1, `limit` outside `[1, 100]`
falls back to the default 20 (the request is not rejected), and
`total_pages = math.ceil(total_count / limit)`, `has_more = page < total_pages`
(the float true-division followed by `math.ceil` is modelled by exact
rational ceiling). -/
structure Pagination where
  page : ℤ
  limit : ℤ
  total_count : Nat
  total_pages : ℤ
  has_more : Bool
deriving DecidableEq, Repr

def get_cards_pagination (page limit : ℤ) (total_count : Nat) : Pagination :=
  let p := if page < 1 then 1 else page
  let l := if limit < 1 ∨ 100 < limit then 20 else limit
  let tp : ℤ := Int.ceil ((total_count : ℚ) / (l : ℚ))
  { page := p, limit := l, total_count := total_count, total_pages := tp,
    has_more := decide (p < tp) }

/-! ## Claim theorems -/

/-- C7.  `clean_text` is a total Lean function (hence deterministic and
never-failing on every input string), it is exactly the six-stage
composition lowercase → strip URLs → strip HTML tags → strip punctuation →
strip line breaks → strip digit-bearing tokens, in that order, and it can
return the empty string on a nonempty input that is entirely removed. -/
theorem clean_text_contract :
    (∀ s : String, clean_text s =
      String.mk (stripDigitWords (stripNewlines (stripPunct (stripHtmlTags
        (stripUrls (s.data.map Char.toLower))))))) ∧
    ("abc123" ≠ "" ∧ clean_text "abc123" = "") ∧
    clean_text "a<b!>c" = "ac" ∧
    clean_text "see www.x.com now" = "see  now" := by
  refine ⟨fun s => rfl, ⟨by decide, ?_⟩, ?_, ?_⟩ <;> rfl

/-- C8.  `generate_card_data` on a record that has the required fields
(`id`, news text, prediction, timestamp, submitter) and every optional field
absent never raises and returns the card with the documented defaults:
confidence 0.85, source "User Submission", category "General", no tags,
language "en", computed word and character counts, recomputed content hash,
empty entities, model version "1.0". -/
theorem generate_card_data_defaults (md5hex : String → String) (i : Nat)
    (username news prediction : String) (ts : ℤ) :
    generate_card_data md5hex
      { id := some i, username := username, news := news,
        prediction := prediction, confidence := none, probabilities := none,
        timestamp := ts, source := none, category := none, tags := none,
        language := none, entities := none, content_hash := none,
        processing_time := none, model_version := none, user_agent := none,
        ip_address := none, word_count := none, character_count := none } =
    .ok
      { id := toString i,
        title := extract_title_from_text news 100,
        content := news,
        prediction := prediction,
        confidence := 0.85,
        timestamp := ts,
        username := username,
        imageUrl := generate_placeholder_image_url prediction,
        source := "User Submission",
        category := "General",
        tags := [],
        language := "en",
        word_count := (pyWords news).length,
        character_count := news.length,
        content_hash := md5hex news,
        entities := ⟨[], [], []⟩,
        model_version := "1.0" } := rfl

/-- C9.  `GET /api/cards` parameter handling: a `limit` outside `[1, 100]`
is replaced by the default 20 (an in-range `limit` is kept), a `page` below
1 is clamped to 1 (otherwise kept), and the returned pagination object
satisfies `total_pages = ceil(total_count / limit)` and
`has_more = (page < total_pages)` over the clamped values. -/
theorem get_cards_pagination_clamps (page limit : ℤ) (total : Nat) :
    ((limit < 1 ∨ 100 < limit) →
      (get_cards_pagination page limit total).limit = 20) ∧
    (1 ≤ limit → limit ≤ 100 →
      (get_cards_pagination page limit total).limit = limit) ∧
    (page < 1 → (get_cards_pagination page limit total).page = 1) ∧
    (1 ≤ page → (get_cards_pagination page limit total).page = page) ∧
    (get_cards_pagination page limit total).total_pages =
      Int.ceil ((total : ℚ) / ((get_cards_pagination page limit total).limit : ℚ)) ∧
    ((get_cards_pagination page limit total).has_more = true ↔
      (get_cards_pagination page limit total).page <
        (get_cards_pagination page limit total).total_pages) := by
  refine ⟨?_, ?_, ?_, ?_, ?_, ?_⟩
  · intro h; simp only [get_cards_pagination, if_pos h]
  · intro h1 h2
    have h : ¬(limit < 1 ∨ 100 < limit) := by omega
    simp only [get_cards_pagination, if_neg h]
  · intro h; simp only [get_cards_pagination, if_pos h]
  · intro h
    have h2 : ¬page < 1 := by omega
    simp only [get_cards_pagination, if_neg h2]
  · rfl
  · simp only [get_cards_pagination, decide_eq_true_eq]

/-- Witness for C9 at the spec's own example `limit = 101` (and `page = 0`). -/
theorem get_cards_pagination_clamps_witness :
    (get_cards_pagination 0 101 45).limit = 20 ∧
    (get_cards_pagination 0 101 45).page = 1 :=
  ⟨(get_cards_pagination_clamps 0 101 45).1 (Or.inr (by decide)),
   (get_cards_pagination_clamps 0 101 45).2.2.1 (by decide)⟩

/-- C10.  `enhanced_extract_tags_from_text` returns at most 5 tags, each
drawn from the fixed 10-name taxonomy, without repetition and in taxonomy
order (it is a sublist of the fixed ordered name list). -/
theorem enhanced_tags_taxonomy (text : String) :
    (enhanced_extract_tags_from_text text).length ≤ 5 ∧
    List.Sublist (enhanced_extract_tags_from_text text)
      ["politics", "health", "technology", "sports", "business",
       "entertainment", "science", "environment", "crime", "international"] ∧
    (enhanced_extract_tags_from_text text).Nodup := by
  have hnames :
      newsCategories.map (fun c => c.1) =
        ["politics", "health", "technology", "sports", "business",
         "entertainment", "science", "environment", "crime", "international"] := by
    rfl
  have hsub : List.Sublist (enhanced_extract_tags_from_text text)
      (newsCategories.map (fun c => c.1)) := by
    unfold enhanced_extract_tags_from_text
    exact (List.take_sublist _ _).trans
      (List.Sublist.map _ (List.filter_sublist _))
  rw [hnames] at hsub
  refine ⟨?_, hsub, hsub.nodup (by decide)⟩
  unfold enhanced_extract_tags_from_text
  simp only [List.length_take]
  omega

/-! ## Rate limiter lemmas -/

theorem lookupD_updateD (s : RateStorage) (ip : String) (v : List ℤ) :
    lookupD (updateD s ip v) ip = v := by
  induction s with
  | nil => simp [updateD, lookupD]
  | cons kv rest ih =>
    obtain ⟨k, w⟩ := kv
    by_cases h : k = ip
    · simp [updateD, lookupD, h]
    · simp [updateD, lookupD, h, ih]

theorem pruneL_idem (l : List ℤ) (now w : ℤ) :
    pruneL (pruneL l now w) now w = pruneL l now w := by
  simp [pruneL, List.filter_filter, Bool.and_self]

theorem runRate_append (maxR : Nat) (w : ℤ) (l1 l2 s : List ℤ) :
    runRate maxR w (l1 ++ l2) s =
      ((runRate maxR w l1 s).1 ++ (runRate maxR w l2 (runRate maxR w l1 s).2).1,
       (runRate maxR w l2 (runRate maxR w l1 s).2).2) := by
  induction l1 generalizing s with
  | nil => simp [runRate]
  | cons t ts ih => simp [runRate, ih]

/-- While the budget is not exhausted and all instants (recorded and
incoming) lie pairwise within the window, every check passes, nothing is
pruned, and each incoming instant is appended. -/
theorem runRate_saturates (maxR : Nat) (calls s : List ℤ)
    (hwin : ∀ x ∈ s ++ calls, ∀ y ∈ s ++ calls, x - y < 60)
    (hlen : s.length + calls.length ≤ maxR) :
    runRate maxR 60 calls s = (List.replicate calls.length true, s ++ calls) := by
  induction calls generalizing s with
  | nil => simp [runRate]
  | cons t ts ih =>
    have hs : pruneL s t 60 = s := by
      apply List.filter_eq_self.mpr
      intro a ha
      simp only [decide_eq_true_eq]
      exact hwin t (by simp) a (by simp [ha])
    have hlt : s.length < maxR := by
      simp only [List.length_cons] at hlen; omega
    have step : rate_allow s t maxR 60 = (true, s ++ [t]) := by
      unfold rate_allow
      simp only [hs, if_neg (by omega : ¬maxR ≤ s.length)]
    have hwin' : ∀ x ∈ (s ++ [t]) ++ ts, ∀ y ∈ (s ++ [t]) ++ ts, x - y < 60 := by
      intro x hx y hy
      rw [List.append_assoc, List.singleton_append] at hx hy
      exact hwin x hx y hy
    have hlen' : (s ++ [t]).length + ts.length ≤ maxR := by
      simp only [List.length_append, List.length_cons, List.length_nil] at hlen ⊢
      omega
    have ihh := ih (s ++ [t]) hwin' hlen'
    simp only [runRate, step, ihh, List.length_cons, List.replicate_succ,
      List.append_assoc, List.singleton_append]

/-- C3.  Rate limiter semantics: a check first prunes instants older than the
window; at `max_requests` pruned entries it rejects without recording the
attempt, otherwise it records the current instant and passes.  For
`POST /api/predict` the budget is 30 per 60 seconds: of 31 requests from one
client all lying within 60 seconds of each other, the first 30 pass and the
31st is rejected, which the endpoint surfaces as the 429 error response. -/
theorem rate_limit_thirty_per_sixty
    (ghash : String → String) (mp : String → String)
    (mpp : String → Option (ℚ × ℚ)) (pre : List ℤ) (t : ℤ)
    (hlen : pre.length = 30)
    (hwin : ∀ x ∈ pre ++ [t], ∀ y ∈ pre ++ [t], x - y < 60) :
    (∀ l now, 30 ≤ (pruneL l now 60).length →
      rate_allow l now 30 60 = (false, pruneL l now 60)) ∧
    (∀ l now, (pruneL l now 60).length < 30 →
      rate_allow l now 30 60 = (true, pruneL l now 60 ++ [now])) ∧
    (runRate 30 60 (pre ++ [t]) []).1 = List.replicate 30 true ++ [false] ∧
    (∀ st ip ua now body u sOk, (predict_rate st.rateStorage ip now).1 = false →
      (predict_enhanced ghash mp mpp st ip ua now body u sOk).1 =
        .err 429 "Rate limit exceeded. Max 30 requests per 60 seconds.") := by
  refine ⟨?_, ?_, ?_, ?_⟩
  · intro l now h
    unfold rate_allow
    simp only [if_pos h]
  · intro l now h
    unfold rate_allow
    simp only [if_neg (by omega : ¬30 ≤ (pruneL l now 60).length)]
  · have h1 : runRate 30 60 pre [] = (List.replicate 30 true, pre) := by
      have := runRate_saturates 30 pre []
        (by
          intro x hx y hy
          simp only [List.nil_append] at hx hy
          exact hwin x (List.mem_append_left _ hx) y (List.mem_append_left _ hy))
        (by simp [hlen])
      simpa [hlen] using this
    have hp : pruneL pre t 60 = pre := by
      apply List.filter_eq_self.mpr
      intro a ha
      simp only [decide_eq_true_eq]
      exact hwin t (by simp) a (List.mem_append_left _ ha)
    have hstep : rate_allow pre t 30 60 = (false, pre) := by
      unfold rate_allow
      simp only [hp, if_pos (by omega : 30 ≤ pre.length)]
    rw [runRate_append, h1]
    simp [runRate, hstep]
  · intro st ip ua now body u sOk h
    simp only [predict_enhanced, h, if_neg, Bool.false_eq_true, ite_false]

/-- Witness for C3: 31 requests all at instant 0. -/
theorem rate_limit_thirty_per_sixty_witness :
    (runRate 30 60 (List.replicate 30 (0 : ℤ) ++ [0]) []).1 =
      List.replicate 30 true ++ [false] :=
  (rate_limit_thirty_per_sixty (fun _ => "") (fun _ => "") (fun _ => none)
    (List.replicate 30 0) 0 (by decide) (by decide)).2.2.1

/-- C4 counterexample.  From empty shared storage, one client makes 20
allowed `POST /api/analyze-url` requests; only 10 of the next 11
`POST /api/predict` requests in the same window then pass and the 11th is
rejected, although from a clean keyspace all 11 predict requests would pass:
consumption against `analyze-url` did reduce `predict`'s remaining budget,
because `rate_limit_storage` is keyed by the client ip alone. -/
theorem rate_limit_keyspace_counterexample :
    (runEndpointCalls analyze_url_rate "c" (List.replicate 20 0) []).1 =
      List.replicate 20 true ∧
    (runEndpointCalls predict_rate "c" (List.replicate 11 0)
        (runEndpointCalls analyze_url_rate "c" (List.replicate 20 0) []).2).1 =
      List.replicate 10 true ++ [false] ∧
    (runEndpointCalls predict_rate "c" (List.replicate 11 0) []).1 =
      List.replicate 11 true := by
  decide

/-- C4 amended.  `rate_limit_storage` is keyed by the client id alone and
shared by every `rate_limit` instance: an allowed `analyze-url` request
appends its instant to the very list the `predict` check prunes and counts,
so the count `predict` sees at the same instant grows by one — budgets of
different endpoint classes do cross-contaminate. -/
theorem rate_limit_shared_keyspace (s : RateStorage) (ip : String) (now : ℤ)
    (h : (analyze_url_rate s ip now).1 = true) :
    lookupD (analyze_url_rate s ip now).2 ip =
      pruneL (lookupD s ip) now 60 ++ [now] ∧
    (pruneL (lookupD (analyze_url_rate s ip now).2 ip) now 60).length =
      (pruneL (lookupD s ip) now 60).length + 1 := by
  have hb : ¬20 ≤ (pruneL (lookupD s ip) now 60).length := by
    intro hc
    have : (analyze_url_rate s ip now).1 = false := by
      simp only [analyze_url_rate, rate_limit_check, rate_allow, if_pos hc]
    rw [this] at h
    exact Bool.false_ne_true h
  have h2 : (analyze_url_rate s ip now).2 =
      updateD s ip (pruneL (lookupD s ip) now 60 ++ [now]) := by
    simp only [analyze_url_rate, rate_limit_check, rate_allow, if_neg hb]
  constructor
  · rw [h2, lookupD_updateD]
  · rw [h2, lookupD_updateD]
    have : pruneL (pruneL (lookupD s ip) now 60 ++ [now]) now 60 =
        pruneL (lookupD s ip) now 60 ++ [now] := by
      unfold pruneL
      rw [List.filter_append]
      have e1 := pruneL_idem (lookupD s ip) now 60
      unfold pruneL at e1
      rw [e1]
      simp
    rw [this]
    simp

/-- Witness for the amended C4 at a concrete allowed `analyze-url` request. -/
theorem rate_limit_shared_keyspace_witness :
    lookupD (analyze_url_rate [] "c" 0).2 "c" =
      pruneL (lookupD [] "c") 0 60 ++ [0] ∧
    (pruneL (lookupD (analyze_url_rate [] "c" 0).2 "c") 0 60).length =
      (pruneL (lookupD [] "c") 0 60).length + 1 :=
  rate_limit_shared_keyspace [] "c" 0 (by decide)

/-! ## Pipeline path lemmas -/

theorem predict_rate_pass_of_small (s : RateStorage) (ip : String) (now : ℤ)
    (h : (pruneL (lookupD s ip) now 60).length < 30) :
    (predict_rate s ip now).1 = true := by
  simp only [predict_rate, rate_limit_check, rate_allow,
    if_neg (by omega : ¬30 ≤ (pruneL (lookupD s ip) now 60).length)]

theorem predict_rate_allowed_update (s : RateStorage) (ip : String) (now : ℤ)
    (h : (pruneL (lookupD s ip) now 60).length < 30) :
    (predict_rate s ip now).2 =
      updateD s ip (pruneL (lookupD s ip) now 60 ++ [now]) := by
  simp only [predict_rate, rate_limit_check, rate_allow,
    if_neg (by omega : ¬30 ≤ (pruneL (lookupD s ip) now 60).length)]

theorem predict_to_core (gh mp : String → String)
    (mpp : String → Option (ℚ × ℚ)) (st : ServerState) (ip ua : String)
    (now : ℤ) (data : Payload) (rawText : String) (u : Option String)
    (sOk : Bool) (hallow : (predict_rate st.rateStorage ip now).1 = true)
    (ht : data.text = some rawText) :
    predict_enhanced gh mp mpp st ip ua now (some data) u sOk =
      predict_core gh mp mpp (predictRateState st ip now) ip ua now data
        rawText u sOk := by
  simp only [predict_enhanced, predictRateState, hallow, if_true, ht]

theorem predict_missing_text (gh mp : String → String)
    (mpp : String → Option (ℚ × ℚ)) (st : ServerState) (ip ua : String)
    (now : ℤ) (data : Payload) (u : Option String) (sOk : Bool)
    (hallow : (predict_rate st.rateStorage ip now).1 = true)
    (ht : data.text = none) :
    predict_enhanced gh mp mpp st ip ua now (some data) u sOk =
      (.err 400 "Missing required fields: text", predictRateState st ip now,
       noEffects) := by
  simp only [predict_enhanced, predictRateState, hallow, if_true, ht]

theorem predict_core_short (gh mp : String → String)
    (mpp : String → Option (ℚ × ℚ)) (st1 : ServerState) (ip ua : String)
    (now : ℤ) (data : Payload) (rawText : String) (u : Option String)
    (sOk : Bool) (h : (pyStrip rawText).length < 10) :
    predict_core gh mp mpp st1 ip ua now data rawText u sOk =
      (.err 400 "Text must be at least 10 characters long", st1, noEffects) := by
  simp only [predict_core, if_pos h]

theorem predict_core_long (gh mp : String → String)
    (mpp : String → Option (ℚ × ℚ)) (st1 : ServerState) (ip ua : String)
    (now : ℤ) (data : Payload) (rawText : String) (u : Option String)
    (sOk : Bool) (h1 : ¬(pyStrip rawText).length < 10)
    (h2 : 10000 < (pyStrip rawText).length) :
    predict_core gh mp mpp st1 ip ua now data rawText u sOk =
      (.err 400 "Text must be less than 10,000 characters", st1, noEffects) := by
  simp only [predict_core, if_neg h1, if_pos h2]

theorem predict_core_fresh (gh mp : String → String)
    (mpp : String → Option (ℚ × ℚ)) (st1 : ServerState) (ip ua : String)
    (now : ℤ) (data : Payload) (rawText : String) (u : Option String)
    (sOk : Bool) (h1 : ¬(pyStrip rawText).length < 10)
    (h2 : ¬10000 < (pyStrip rawText).length)
    (hmiss : get_prediction_by_hash st1.store (gh (pyStrip rawText)) = none) :
    predict_core gh mp mpp st1 ip ua now data rawText u sOk =
      predict_fresh gh mp mpp st1 ip ua now data (pyStrip rawText) u sOk := by
  simp only [predict_core, if_neg h1, if_neg h2, hmiss]

theorem predict_core_hit (gh mp : String → String)
    (mpp : String → Option (ℚ × ℚ)) (st1 : ServerState) (ip ua : String)
    (now : ℤ) (data : Payload) (rawText : String) (u : Option String)
    (sOk : Bool) (r : PredRecord) (i : Nat)
    (h1 : ¬(pyStrip rawText).length < 10)
    (h2 : ¬10000 < (pyStrip rawText).length)
    (hhit : get_prediction_by_hash st1.store (gh (pyStrip rawText)) = some r)
    (hid : r.id = some i) :
    ∃ card, generate_card_data gh r = .ok card ∧ card.id = toString i ∧
      predict_core gh mp mpp st1 ip ua now data rawText u sOk =
        (.ok card true r.prediction (r.confidence.getD 0.85)
          (r.model_version.getD "1.0"), st1, noEffects) := by
  have hgen : generate_card_data gh r =
      .ok
        { id := toString i,
          title := extract_title_from_text r.news 100,
          content := r.news,
          prediction := r.prediction,
          confidence := r.confidence.getD 0.85,
          timestamp := r.timestamp,
          username := r.username,
          imageUrl := generate_placeholder_image_url r.prediction,
          source := r.source.getD "User Submission",
          category := r.category.getD "General",
          tags := r.tags.getD [],
          language := r.language.getD "en",
          word_count := r.word_count.getD (pyWords r.news).length,
          character_count := r.character_count.getD r.news.length,
          content_hash := r.content_hash.getD (gh r.news),
          entities := r.entities.getD ⟨[], [], []⟩,
          model_version := r.model_version.getD "1.0" } := by
    simp only [generate_card_data, hid]
  refine ⟨_, hgen, rfl, ?_⟩
  simp only [predict_core, if_neg h1, if_neg h2, hhit, hgen]

theorem predict_fresh_store_ok (gh mp : String → String)
    (mpp : String → Option (ℚ × ℚ)) (st1 : ServerState) (ip ua : String)
    (now : ℤ) (data : Payload) (T : String) (u : Option String) :
    ∃ card,
      generate_card_data gh
        { fresh_prediction_record gh mp mpp ip ua now data T u with
            id := some st1.nextId } = .ok card ∧
      card.id = toString st1.nextId ∧
      predict_fresh gh mp mpp st1 ip ua now data T u true =
        (.ok card false (classifier_outputs mp mpp (clean_text T)).1
           (classifier_outputs mp mpp (clean_text T)).2.1 "1.0",
         { st1 with
             store := st1.store ++
               [db_normalize (fresh_prediction_record gh mp mpp ip ua now data T u)
                 st1.nextId],
             nextId := st1.nextId + 1,
             statsCache :=
               { st1.statsCache with data := none, timestamp := now } },
         ⟨1, 1⟩) := by
  have hgen : generate_card_data gh
      { fresh_prediction_record gh mp mpp ip ua now data T u with
          id := some st1.nextId } =
      .ok
        { id := toString st1.nextId,
          title := extract_title_from_text T 100,
          content := T,
          prediction := (classifier_outputs mp mpp (clean_text T)).1,
          confidence := (classifier_outputs mp mpp (clean_text T)).2.1,
          timestamp := now,
          username := u.getD "anonymous",
          imageUrl :=
            generate_placeholder_image_url
              (classifier_outputs mp mpp (clean_text T)).1,
          source := data.source.getD "API",
          category := data.category.getD "General",
          tags := enhanced_extract_tags_from_text T,
          language := detect_language T,
          word_count := (pyWords T).length,
          character_count := T.length,
          content_hash := gh T,
          entities := extract_entities T,
          model_version := "1.0" } := by
    simp only [generate_card_data, fresh_prediction_record, Option.getD_some]
  refine ⟨_, hgen, rfl, ?_⟩
  simp only [predict_fresh, if_pos trivial, create_prediction, if_true, hgen,
    set_cached_data]

theorem predict_fresh_store_fail (gh mp : String → String)
    (mpp : String → Option (ℚ × ℚ)) (st1 : ServerState) (ip ua : String)
    (now : ℤ) (data : Payload) (T : String) (u : Option String) :
    predict_fresh gh mp mpp st1 ip ua now data T u false =
      (.err 500 "Prediction failed: KeyError: id", st1, ⟨1, 0⟩) := by
  simp only [predict_fresh, Bool.false_eq_true, if_false, generate_card_data,
    fresh_prediction_record]
  rfl

/-- C1.  Dedup idempotence of `POST /api/predict`: for a valid text `T`
(trimmed length in [10, 10000]) whose content hash is not yet stored,
submitting `T` twice (rate budget permitting, first store write succeeding)
gives a fresh success response and then a response flagged `cached: true`
carrying the same card id; the second request invokes no classifier and
writes nothing (`noEffects`), and exactly one stored record carries `T`'s
content hash. -/
theorem predict_dedup_idempotent (gh mp : String → String)
    (mpp : String → Option (ℚ × ℚ)) (st : ServerState) (ip ua ua2 : String)
    (now1 now2 : ℤ) (T : String) (data1 data2 : Payload)
    (u1 u2 : Option String) (sOk2 : Bool)
    (ht1 : data1.text = some T) (ht2 : data2.text = some T)
    (h10 : 10 ≤ (pyStrip T).length) (h10k : (pyStrip T).length ≤ 10000)
    (hfresh : get_prediction_by_hash st.store (gh (pyStrip T)) = none)
    (hrate : (pruneL (lookupD st.rateStorage ip) now1 60).length ≤ 28) :
    ∃ card1 res1 conf1 st1 card2 res2 conf2 mv2 st2,
      predict_enhanced gh mp mpp st ip ua now1 (some data1) u1 true =
        (.ok card1 false res1 conf1 "1.0", st1, ⟨1, 1⟩) ∧
      predict_enhanced gh mp mpp st1 ip ua2 now2 (some data2) u2 sOk2 =
        (.ok card2 true res2 conf2 mv2, st2, noEffects) ∧
      card2.id = card1.id ∧
      (st2.store.filter
        (fun r => decide (r.content_hash = some (gh (pyStrip T))))).length = 1 := by
  have hallow1 : (predict_rate st.rateStorage ip now1).1 = true :=
    predict_rate_pass_of_small _ _ _ (by omega)
  obtain ⟨card1, hgen1, hid1, hfr⟩ :=
    predict_fresh_store_ok gh mp mpp (predictRateState st ip now1) ip ua now1
      data1 (pyStrip T) u1
  have eq1 : predict_enhanced gh mp mpp st ip ua now1 (some data1) u1 true =
      predict_fresh gh mp mpp (predictRateState st ip now1) ip ua now1 data1
        (pyStrip T) u1 true :=
    (predict_to_core gh mp mpp st ip ua now1 data1 T u1 true hallow1 ht1).trans
      (predict_core_fresh gh mp mpp (predictRateState st ip now1) ip ua now1
        data1 T u1 true (by omega) (by omega)
        (show get_prediction_by_hash (predictRateState st ip now1).store
            (gh (pyStrip T)) = none from hfresh))
  have eq1' := eq1.trans hfr
  have stored_eq :
      db_normalize
        (fresh_prediction_record gh mp mpp ip ua now1 data1 (pyStrip T) u1)
        (predictRateState st ip now1).nextId =
      db_normalize
        (fresh_prediction_record gh mp mpp ip ua now1 data1 (pyStrip T) u1)
        st.nextId := rfl
  have hst1store :
      (predict_enhanced gh mp mpp st ip ua now1 (some data1) u1 true).2.1.store =
        st.store ++
          [db_normalize
            (fresh_prediction_record gh mp mpp ip ua now1 data1 (pyStrip T) u1)
            st.nextId] := by
    rw [eq1']
    rfl
  have hst1rate :
      (predict_enhanced gh mp mpp st ip ua now1 (some data1) u1 true).2.1.rateStorage =
        updateD st.rateStorage ip
          (pruneL (lookupD st.rateStorage ip) now1 60 ++ [now1]) := by
    rw [eq1']
    exact predict_rate_allowed_update _ _ _ (by omega)
  have hp : decide
      ((db_normalize
        (fresh_prediction_record gh mp mpp ip ua now1 data1 (pyStrip T) u1)
        st.nextId).content_hash = some (gh (pyStrip T))) = true :=
    decide_eq_true rfl
  have hfindnil :
      List.find?
        (fun r => decide (r.content_hash = some (gh (pyStrip T)))) st.store =
        none := hfresh
  have hhit2 :
      get_prediction_by_hash
        (st.store ++
          [db_normalize
            (fresh_prediction_record gh mp mpp ip ua now1 data1 (pyStrip T) u1)
            st.nextId])
        (gh (pyStrip T)) =
      some (db_normalize
        (fresh_prediction_record gh mp mpp ip ua now1 data1 (pyStrip T) u1)
        st.nextId) := by
    unfold get_prediction_by_hash
    rw [List.find?_append, hfindnil, Option.none_or]
    exact List.find?_cons_of_pos _ hp
  have hrate2 :
      (pruneL
        (lookupD
          (predict_enhanced gh mp mpp st ip ua now1 (some data1) u1 true).2.1.rateStorage
          ip) now2 60).length < 30 := by
    rw [hst1rate, lookupD_updateD]
    have h1 := List.length_filter_le
      (fun t => decide (now2 - t < 60))
      (pruneL (lookupD st.rateStorage ip) now1 60 ++ [now1])
    have h2 : (pruneL (lookupD st.rateStorage ip) now1 60 ++ [now1]).length =
        (pruneL (lookupD st.rateStorage ip) now1 60).length + 1 := by simp
    have hrate' :
        (List.filter (fun t => decide (now1 - t < 60))
          (lookupD st.rateStorage ip)).length ≤ 28 := by
      simpa [pruneL] using hrate
    simp only [pruneL] at h1 h2 ⊢
    omega
  have hallow2 :
      (predict_rate
        (predict_enhanced gh mp mpp st ip ua now1 (some data1) u1 true).2.1.rateStorage
        ip now2).1 = true :=
    predict_rate_pass_of_small _ _ _ hrate2
  have hhit2' :
      get_prediction_by_hash
        (predictRateState
          (predict_enhanced gh mp mpp st ip ua now1 (some data1) u1 true).2.1
          ip now2).store (gh (pyStrip T)) =
      some (db_normalize
        (fresh_prediction_record gh mp mpp ip ua now1 data1 (pyStrip T) u1)
        st.nextId) := by
    show get_prediction_by_hash
      (predict_enhanced gh mp mpp st ip ua now1 (some data1) u1 true).2.1.store
      (gh (pyStrip T)) = _
    rw [hst1store]
    exact hhit2
  obtain ⟨card2, hgen2, hid2, hcore2⟩ :=
    predict_core_hit gh mp mpp
      (predictRateState
        (predict_enhanced gh mp mpp st ip ua now1 (some data1) u1 true).2.1
        ip now2)
      ip ua2 now2 data2 T u2 sOk2
      (db_normalize
        (fresh_prediction_record gh mp mpp ip ua now1 data1 (pyStrip T) u1)
        st.nextId)
      st.nextId (by omega) (by omega) hhit2' rfl
  have eq2 : predict_enhanced gh mp mpp
      (predict_enhanced gh mp mpp st ip ua now1 (some data1) u1 true).2.1
      ip ua2 now2 (some data2) u2 sOk2 =
      (.ok card2 true
        (db_normalize
          (fresh_prediction_record gh mp mpp ip ua now1 data1 (pyStrip T) u1)
          st.nextId).prediction
        ((db_normalize
          (fresh_prediction_record gh mp mpp ip ua now1 data1 (pyStrip T) u1)
          st.nextId).confidence.getD 0.85)
        ((db_normalize
          (fresh_prediction_record gh mp mpp ip ua now1 data1 (pyStrip T) u1)
          st.nextId).model_version.getD "1.0"),
       predictRateState
         (predict_enhanced gh mp mpp st ip ua now1 (some data1) u1 true).2.1
         ip now2,
       noEffects) :=
    (predict_to_core gh mp mpp
      (predict_enhanced gh mp mpp st ip ua now1 (some data1) u1 true).2.1
      ip ua2 now2 data2 T u2 sOk2 hallow2 ht2).trans hcore2
  refine ⟨card1, (classifier_outputs mp mpp (clean_text (pyStrip T))).1,
    (classifier_outputs mp mpp (clean_text (pyStrip T))).2.1,
    (predict_enhanced gh mp mpp st ip ua now1 (some data1) u1 true).2.1,
    card2,
    (db_normalize
      (fresh_prediction_record gh mp mpp ip ua now1 data1 (pyStrip T) u1)
      st.nextId).prediction,
    ((db_normalize
      (fresh_prediction_record gh mp mpp ip ua now1 data1 (pyStrip T) u1)
      st.nextId).confidence.getD 0.85),
    ((db_normalize
      (fresh_prediction_record gh mp mpp ip ua now1 data1 (pyStrip T) u1)
      st.nextId).model_version.getD "1.0"),
    (predict_enhanced gh mp mpp
      (predict_enhanced gh mp mpp st ip ua now1 (some data1) u1 true).2.1
      ip ua2 now2 (some data2) u2 sOk2).2.1, ?_, ?_, ?_, ?_⟩
  · rw [eq1']
  · rw [eq2]
  · rw [hid2, hid1]
    rfl
  · have hst2 :
        (predict_enhanced gh mp mpp
          (predict_enhanced gh mp mpp st ip ua now1 (some data1) u1 true).2.1
          ip ua2 now2 (some data2) u2 sOk2).2.1.store =
        st.store ++
          [db_normalize
            (fresh_prediction_record gh mp mpp ip ua now1 data1 (pyStrip T) u1)
            st.nextId] := by
      rw [eq2]
      exact hst1store
    rw [hst2, List.filter_append,
      List.filter_eq_nil_iff.mpr (List.find?_eq_none.mp hfindnil)]
    simp [hp]

/-- Witness for C1 at a concrete valid submission against the empty store. -/
theorem predict_dedup_idempotent_witness :
    ∃ card1 res1 conf1 st1 card2 res2 conf2 mv2 st2,
      predict_enhanced (fun _ => "h") (fun _ => "REAL") (fun _ => none)
        ⟨[], 1, ⟨none, 0, 300⟩, []⟩ "1.1.1.1" "agent" 0
        (some ⟨some "Breaking news about the economy today", none, none⟩)
        none true =
        (.ok card1 false res1 conf1 "1.0", st1, ⟨1, 1⟩) ∧
      predict_enhanced (fun _ => "h") (fun _ => "REAL") (fun _ => none) st1
        "1.1.1.1" "agent2" 1
        (some ⟨some "Breaking news about the economy today", none, none⟩)
        none true =
        (.ok card2 true res2 conf2 mv2, st2, noEffects) ∧
      card2.id = card1.id ∧
      (st2.store.filter
        (fun r => decide (r.content_hash =
          some ((fun _ => "h")
            (pyStrip "Breaking news about the economy today"))))).length = 1 :=
  predict_dedup_idempotent (fun _ => "h") (fun _ => "REAL") (fun _ => none)
    ⟨[], 1, ⟨none, 0, 300⟩, []⟩ "1.1.1.1" "agent" "agent2" 0 1
    "Breaking news about the economy today"
    ⟨some "Breaking news about the economy today", none, none⟩
    ⟨some "Breaking news about the economy today", none, none⟩
    none none true rfl rfl (by decide) (by decide) rfl (by decide)

/-- C2 (code bug).  When the store write fails during a fresh prediction,
the code swallows the exception but never sets `prediction_record['id']`, so
`generate_card_data` raises `KeyError` and the outer handler answers with the
500 error envelope instead of the success response the spec promises: here a
valid, never-seen text with a failing store yields
`err 500 "Prediction failed: KeyError: id"`, the classifier was called once,
nothing was stored, and the statistics cache was not touched. -/
theorem predict_store_failure_returns_500 :
    predict_enhanced (fun _ => "h") (fun _ => "FAKE") (fun _ => none)
      ⟨[], 1, ⟨none, 0, 300⟩, []⟩ "9.9.9.9" "agent" 0
      (some ⟨some "Breaking news about the economy today", none, none⟩)
      none false =
    (.err 500 "Prediction failed: KeyError: id",
     predictRateState ⟨[], 1, ⟨none, 0, 300⟩, []⟩ "9.9.9.9" 0, ⟨1, 0⟩) := by
  rw [predict_to_core (fun _ => "h") (fun _ => "FAKE") (fun _ => none)
      ⟨[], 1, ⟨none, 0, 300⟩, []⟩ "9.9.9.9" "agent" 0
      ⟨some "Breaking news about the economy today", none, none⟩
      "Breaking news about the economy today" none false rfl rfl,
    predict_core_fresh (fun _ => "h") (fun _ => "FAKE") (fun _ => none)
      (predictRateState ⟨[], 1, ⟨none, 0, 300⟩, []⟩ "9.9.9.9" 0)
      "9.9.9.9" "agent" 0
      ⟨some "Breaking news about the economy today", none, none⟩
      "Breaking news about the economy today" none false
      (by decide) (by decide) rfl,
    predict_fresh_store_fail]

theorem rate_allow_true_update (l : List ℤ) (now : ℤ) (maxR : Nat) (w : ℤ)
    (h : (rate_allow l now maxR w).1 = true) :
    (rate_allow l now maxR w).2 = pruneL l now w ++ [now] := by
  unfold rate_allow at h ⊢
  by_cases hc : maxR ≤ (pruneL l now w).length
  · simp [hc] at h
  · simp [hc]

/-- C5.  Validation failure behavior of `POST /api/predict`: when the rate
check passes but the payload is missing the `text` field or its trimmed text
is shorter than 10 or longer than 10,000 characters, the endpoint answers
with a 400 error, calls no classifier, writes nothing to the store, leaves
the statistics cache untouched — and the rate-limit slot recorded by the
attempt stays recorded (no refund). -/
theorem predict_validation_no_side_effects (gh mp : String → String)
    (mpp : String → Option (ℚ × ℚ)) (st : ServerState) (ip ua : String)
    (now : ℤ) (data : Payload) (rawText : String) (u : Option String)
    (sOk : Bool)
    (hallow : (predict_rate st.rateStorage ip now).1 = true)
    (hbad : data.text = none ∨
      (data.text = some rawText ∧
        ((pyStrip rawText).length < 10 ∨ 10000 < (pyStrip rawText).length))) :
    (∃ msg, predict_enhanced gh mp mpp st ip ua now (some data) u sOk =
      (.err 400 msg, predictRateState st ip now, noEffects)) ∧
    (predictRateState st ip now).store = st.store ∧
    (predictRateState st ip now).statsCache = st.statsCache ∧
    lookupD (predictRateState st ip now).rateStorage ip =
      pruneL (lookupD st.rateStorage ip) now 60 ++ [now] := by
  refine ⟨?_, rfl, rfl, ?_⟩
  · rcases hbad with ht | ⟨ht, hlen⟩
    · exact ⟨_, predict_missing_text gh mp mpp st ip ua now data u sOk hallow ht⟩
    · rcases hlen with hs | hl
      · exact ⟨_, (predict_to_core gh mp mpp st ip ua now data rawText u sOk
          hallow ht).trans
          (predict_core_short gh mp mpp _ ip ua now data rawText u sOk hs)⟩
      · exact ⟨_, (predict_to_core gh mp mpp st ip ua now data rawText u sOk
          hallow ht).trans
          (predict_core_long gh mp mpp _ ip ua now data rawText u sOk
            (by omega) hl)⟩
  · show lookupD (updateD st.rateStorage ip
      (rate_allow (lookupD st.rateStorage ip) now 30 60).2) ip = _
    rw [lookupD_updateD, rate_allow_true_update _ _ _ _ hallow]

/-- Witness for C5: a too-short text against the empty state. -/
theorem predict_validation_no_side_effects_witness :
    (∃ msg, predict_enhanced (fun _ => "h") (fun _ => "REAL") (fun _ => none)
      ⟨[], 1, ⟨none, 0, 300⟩, []⟩ "2.2.2.2" "agent" 0
      (some ⟨some "short", none, none⟩) none true =
      (.err 400 msg, predictRateState ⟨[], 1, ⟨none, 0, 300⟩, []⟩ "2.2.2.2" 0,
       noEffects)) ∧
    (predictRateState ⟨[], 1, ⟨none, 0, 300⟩, []⟩ "2.2.2.2" 0).store =
      (⟨[], 1, ⟨none, 0, 300⟩, []⟩ : ServerState).store ∧
    (predictRateState ⟨[], 1, ⟨none, 0, 300⟩, []⟩ "2.2.2.2" 0).statsCache =
      (⟨[], 1, ⟨none, 0, 300⟩, []⟩ : ServerState).statsCache ∧
    lookupD (predictRateState ⟨[], 1, ⟨none, 0, 300⟩, []⟩ "2.2.2.2" 0).rateStorage
      "2.2.2.2" =
      pruneL (lookupD (⟨[], 1, ⟨none, 0, 300⟩, []⟩ : ServerState).rateStorage
        "2.2.2.2") 0 60 ++ [0] :=
  predict_validation_no_side_effects (fun _ => "h") (fun _ => "REAL")
    (fun _ => none) ⟨[], 1, ⟨none, 0, 300⟩, []⟩ "2.2.2.2" "agent" 0
    ⟨some "short", none, none⟩ "short" none true (by decide)
    (Or.inr ⟨rfl, Or.inl (by decide)⟩)

theorem get_card_stats_hit (st : ServerState) (now : ℤ) (v : StatsResult)
    (hd : st.statsCache.data = some v)
    (hf : now - st.statsCache.timestamp < st.statsCache.ttl) :
    get_card_stats st now = (v, st) := by
  simp [get_card_stats, get_cached_data, hd, hf]

theorem get_card_stats_recompute (st : ServerState) (now : ℤ)
    (h : get_cached_data st.statsCache now = none) :
    get_card_stats st now =
      (format_stats (get_statistics st.store now),
       { st with statsCache := (set_cached_data st.statsCache
           (some (format_stats (get_statistics st.store now))) now) }) := by
  simp [get_card_stats, h]

theorem get_cached_data_none_iff (e : CacheEntry) (now : ℤ) :
    get_cached_data e now = none ↔
      (e.data = none ∨ e.ttl ≤ now - e.timestamp) := by
  unfold get_cached_data
  cases hd : e.data with
  | none => simp
  | some v =>
    by_cases hf : now - e.timestamp < e.ttl
    · simp [hf, hd]
    · simp [hf, hd]
      omega

/-- C6.  Statistics cache freshness: a `GET /api/cards/stats` read returns
the cached value exactly when one is present and `now - last_computed < ttl`
(conjuncts 1–2: a fresh present value is served unchanged, and an absent or
expired entry forces a recompute from the store that refreshes both value
and timestamp); and a non-deduplicated successful prediction (valid new
text, write succeeding) sets the entry's value to absent immediately, so any
subsequent statistics read recomputes from the store (conjuncts 3–4). -/
theorem stats_cache_freshness_and_invalidation (gh mp : String → String)
    (mpp : String → Option (ℚ × ℚ)) (st : ServerState) (ip ua : String)
    (now : ℤ) (data : Payload) (rawText : String) (u : Option String)
    (hallow : (predict_rate st.rateStorage ip now).1 = true)
    (ht : data.text = some rawText)
    (h10 : 10 ≤ (pyStrip rawText).length)
    (h10k : (pyStrip rawText).length ≤ 10000)
    (hmiss : get_prediction_by_hash st.store (gh (pyStrip rawText)) = none) :
    (∀ (cst : ServerState) (now' : ℤ) (v : StatsResult),
      cst.statsCache.data = some v →
      now' - cst.statsCache.timestamp < cst.statsCache.ttl →
      get_card_stats cst now' = (v, cst)) ∧
    (∀ (cst : ServerState) (now' : ℤ),
      cst.statsCache.data = none ∨ cst.statsCache.ttl ≤ now' - cst.statsCache.timestamp →
      get_card_stats cst now' =
        (format_stats (get_statistics cst.store now'),
         { cst with statsCache := (set_cached_data cst.statsCache
             (some (format_stats (get_statistics cst.store now'))) now') })) ∧
    (predict_enhanced gh mp mpp st ip ua now (some data) u true).2.1.statsCache.data =
      none ∧
    (∀ now2 : ℤ,
      get_card_stats (predict_enhanced gh mp mpp st ip ua now (some data) u true).2.1
        now2 =
      (format_stats
        (get_statistics
          (predict_enhanced gh mp mpp st ip ua now (some data) u true).2.1.store
          now2),
       { (predict_enhanced gh mp mpp st ip ua now (some data) u true).2.1 with
           statsCache := (set_cached_data
             (predict_enhanced gh mp mpp st ip ua now (some data) u true).2.1.statsCache
             (some (format_stats
               (get_statistics
                 (predict_enhanced gh mp mpp st ip ua now (some data) u true).2.1.store
                 now2)))
             now2) })) := by
  obtain ⟨card1, hgen1, hid1, hfr⟩ :=
    predict_fresh_store_ok gh mp mpp (predictRateState st ip now) ip ua now
      data (pyStrip rawText) u
  have eqfull : predict_enhanced gh mp mpp st ip ua now (some data) u true =
      predict_fresh gh mp mpp (predictRateState st ip now) ip ua now data
        (pyStrip rawText) u true :=
    (predict_to_core gh mp mpp st ip ua now data rawText u true hallow ht).trans
      (predict_core_fresh gh mp mpp (predictRateState st ip now) ip ua now
        data rawText u true (by omega) (by omega)
        (show get_prediction_by_hash (predictRateState st ip now).store
            (gh (pyStrip rawText)) = none from hmiss))
  have eqfull' := eqfull.trans hfr
  have hinval :
      (predict_enhanced gh mp mpp st ip ua now (some data) u true).2.1.statsCache.data =
        none := by
    rw [eqfull']
  refine ⟨?_, ?_, hinval, ?_⟩
  · intro cst now' v hd hf
    exact get_card_stats_hit cst now' v hd hf
  · intro cst now' h
    exact get_card_stats_recompute cst now'
      ((get_cached_data_none_iff cst.statsCache now').mpr h)
  · intro now2
    exact get_card_stats_recompute _ now2
      ((get_cached_data_none_iff _ now2).mpr (Or.inl hinval))

/-- Witness for C6: a concrete fresh prediction clears the cache entry, and a
concrete fresh cached value is served unchanged. -/
theorem stats_cache_freshness_and_invalidation_witness :
    (predict_enhanced (fun _ => "h") (fun _ => "REAL") (fun _ => none)
      ⟨[], 1, ⟨none, 0, 300⟩, []⟩ "3.3.3.3" "agent" 0
      (some ⟨some "Breaking news about the economy today", none, none⟩)
      none true).2.1.statsCache.data = none ∧
    get_card_stats ⟨[], 5, ⟨some ⟨0, [], 0⟩, 0, 300⟩, []⟩ 10 =
      (⟨0, [], 0⟩, ⟨[], 5, ⟨some ⟨0, [], 0⟩, 0, 300⟩, []⟩) :=
  ⟨(stats_cache_freshness_and_invalidation (fun _ => "h") (fun _ => "REAL")
      (fun _ => none) ⟨[], 1, ⟨none, 0, 300⟩, []⟩ "3.3.3.3" "agent" 0
      ⟨some "Breaking news about the economy today", none, none⟩
      "Breaking news about the economy today" none (by decide) rfl
      (by decide) (by decide) rfl).2.2.1,
   (stats_cache_freshness_and_invalidation (fun _ => "h") (fun _ => "REAL")
      (fun _ => none) ⟨[], 1, ⟨none, 0, 300⟩, []⟩ "3.3.3.3" "agent" 0
      ⟨some "Breaking news about the economy today", none, none⟩
      "Breaking news about the economy today" none (by decide) rfl
      (by decide) (by decide) rfl).1
     ⟨[], 5, ⟨some ⟨0, [], 0⟩, 0, 300⟩, []⟩ 10 ⟨0, [], 0⟩ rfl (by decide)⟩
